import Mathlib

/-!
Verification of the appointment-booking core of a medical appointment API.

The embedding models, from the JavaScript source:
  * the appointment schema and its `checkAvailability` static
    (src/server.js, appointment model section);
  * the appointment controller operations `createAppointment`,
    `updateAppointment`, `cancelAppointment` and the archival sweep
    `updatePastAppointments` (src/controllers/appointment.controller.js).

Modelling conventions:
  * Mongo ObjectIds become `Nat` identities.
  * Calendar dates become `Nat` day indices (days since 1970-01-01, which
    was a Thursday); timestamps become minutes since the epoch, so a
    clock value `now : Nat` has current day `now / 1440`.
  * Times stay `String`s, as in the schema; `parseInt(t.split(':')[0])`
    becomes a digit fold over the characters before the first colon.
  * MongoDB compares the `time` field with plain lexicographic string
    order; `strLt` reproduces that byte order on code points.
-/

deriving instance DecidableEq for Except

/-- Appointment statuses, from the schema enum
`['pending','confirmed','cancelled','completed','archived','no-show']`. -/
inductive Status where
  | pending | confirmed | cancelled | completed | archived | noshow
deriving DecidableEq

/-- Weekday names, as produced by `dayjs.format('dddd').toLowerCase()` and
stored in the doctor's availability entries. -/
inductive Weekday where
  | monday | tuesday | wednesday | thursday | friday | saturday | sunday
deriving DecidableEq

/-- The request actor: the controller distinguishes doctors from patients by
the authenticated record's model name (`req.user.constructor.modelName`). -/
inductive Actor where
  | doctor (id : Nat)
  | patient (id : Nat)
deriving DecidableEq

/-- An appointment record (appointment schema in src/server.js). -/
structure Appointment where
  id : Nat
  patient : Nat
  doctor : Nat
  date : Nat
  time : String
  status : Status
  isArchived : Bool
  reason : String
  notes : String
deriving DecidableEq

/-- One availability window of a doctor (`availabilitySchema` in
src/models/doctor.model.js). -/
structure AvailabilitySlot where
  day : Weekday
  startTime : String
  endTime : String
deriving DecidableEq

/-- The parts of a doctor record the booking core reads. -/
structure Doctor where
  id : Nat
  availability : List AvailabilitySlot
deriving DecidableEq

/-- Value of a digit string, mirroring `parseInt` on the all-digit substrings
produced by splitting a well-formed `HH:MM` string. -/
def parseDigits (l : List Char) : Nat :=
  l.foldl (fun n c => n * 10 + (c.toNat - 48)) 0

/-- Models `parseInt(time.split(':')[0])`: the digits before the first colon. -/
def hourOf (t : String) : Nat :=
  parseDigits (t.data.takeWhile (fun c => c ≠ ':'))

/-- Models `parseInt(time.split(':')[1])`: the digits between the first and the
second colon. -/
def minuteOf (t : String) : Nat :=
  parseDigits ((((t.data.dropWhile (fun c => c ≠ ':')).drop 1).takeWhile (fun c => c ≠ ':')))

/-- A time string converted to minutes since midnight, as the source does
both in the availability comparison and (through dayjs minute diffs) in the
buffer checks. -/
def toMinutes (t : String) : Nat :=
  hourOf t * 60 + minuteOf t

/-- Lexicographic order on code points: MongoDB's string comparison, used by
the `$lt` / `$gt` neighbour queries on `time`. -/
def charListLt : List Char → List Char → Bool
  | _, [] => false
  | [], _ :: _ => true
  | x :: xs, y :: ys =>
      if x.toNat < y.toNat then true
      else if y.toNat < x.toNat then false
      else charListLt xs ys

/-- String comparison used by the neighbour queries. -/
def strLt (a b : String) : Bool := charListLt a.data b.data

/-- The time-format regex `/^([0-1]?[0-9]|2[0-3]):[0-5][0-9]$/` used both by
the controller's input validation and by the schema validator. The hour
alternatives are: one digit `0-9` with an optional leading `0` or `1`
(so one digit, or two digits `00`-`19`) or `2` followed by `0`-`3`; the
minute is `[0-5][0-9]`. -/
def timeFormatValid (s : String) : Bool :=
  match s.data with
  | [h, c, m1, m2] =>
      c.toNat = 58 && (48 ≤ h.toNat && h.toNat ≤ 57) &&
      (48 ≤ m1.toNat && m1.toNat ≤ 53) && (48 ≤ m2.toNat && m2.toNat ≤ 57)
  | [h1, h2, c, m1, m2] =>
      c.toNat = 58 &&
      ((48 ≤ h1.toNat && h1.toNat ≤ 49) && (48 ≤ h2.toNat && h2.toNat ≤ 57) ||
        h1.toNat = 50 && (48 ≤ h2.toNat && h2.toNat ≤ 51)) &&
      (48 ≤ m1.toNat && m1.toNat ≤ 53) && (48 ≤ m2.toNat && m2.toNat ≤ 57)
  | _ => false

/-- JavaScript's `String.prototype.trim`: strip leading and trailing
whitespace. -/
def jsTrim (s : String) : String :=
  let ws : Char → Bool := fun c => c.toNat = 32 || c.toNat = 9 || c.toNat = 10 || c.toNat = 13
  { data := ((s.data.dropWhile ws).reverse.dropWhile ws).reverse }

/-- Day of week of a day index; day 0 (1970-01-01) was a Thursday. Models
`dayjs(date).format('dddd').toLowerCase()`. -/
def weekdayOf (d : Nat) : Weekday :=
  match d % 7 with
  | 0 => .thursday
  | 1 => .friday
  | 2 => .saturday
  | 3 => .sunday
  | 4 => .monday
  | 5 => .tuesday
  | _ => .wednesday

/-- The distinct rejection outcomes of `checkAvailability`, one per `throw`
site in the source, in source order. -/
inductive AvailError where
  | doctorNotFound | pastDate | outsideHours | invalidGranularity
  | afterClosing | noAvailability | slotTaken | insufficientBuffer
deriving DecidableEq

/-- The Spanish error message attached to each `checkAvailability` throw. -/
def availabilityMessage : AvailError → String
  | .doctorNotFound => "Médico no encontrado"
  | .pastDate => "No se pueden agendar citas en fechas pasadas"
  | .outsideHours => "El horario de atención es de 8:00 AM a 5:00 PM"
  | .invalidGranularity => "Las citas deben programarse en intervalos de 30 minutos"
  | .afterClosing => "La última cita disponible es a las 5:00 PM"
  | .noAvailability => "El médico no tiene disponibilidad en este horario"
  | .slotTaken => "Ya existe una cita agendada en este horario"
  | .insufficientBuffer => "Debe haber al menos 30 minutos entre citas"

/-- Models the query clause excluding an id: with a null `appointmentId` every record
matches; with an id, the edited appointment is excluded. -/
def notExcluded (excl : Option Nat) (a : Appointment) : Bool :=
  match excl with
  | none => true
  | some i => decide (a.id ≠ i)

/-- The common filter of the three booking queries in `checkAvailability`:
same doctor, same date, `status: { $nin: ['cancelled'] }`, and
`_id: { $ne: appointmentId }`. -/
def relevantAppointments (store : List Appointment) (doctorId date : Nat)
    (excl : Option Nat) : List Appointment :=
  store.filter (fun a =>
    decide (a.doctor = doctorId) && decide (a.date = date) &&
    decide (a.status ≠ Status.cancelled) && notExcluded excl a)

/-- Models `findOne` sorted by `time` descending: a record with the largest `time`
(the first such record, which is what a deterministic store returns). -/
def maxByTime (l : List Appointment) : Option Appointment :=
  l.foldl (fun acc a =>
    match acc with
    | none => some a
    | some b => if strLt b.time a.time then some a else acc) none

/-- Models `findOne` sorted by `time` ascending: a record with the smallest `time`. -/
def minByTime (l : List Appointment) : Option Appointment :=
  l.foldl (fun acc a =>
    match acc with
    | none => some a
    | some b => if strLt a.time b.time then some a else acc) none

/-- Models the dayjs minute diff of two times: the signed minute
difference. -/
def timeDiff (t1 t2 : String) : Int :=
  (toMinutes t1 : Int) - (toMinutes t2 : Int)

/-- The before-neighbour buffer test: `appointmentTime.diff(prevTime) < 30`
when a previous appointment was found. -/
def prevTooClose (o : Option Appointment) (time : String) : Bool :=
  match o with
  | none => false
  | some prev => decide (timeDiff time prev.time < 30)

/-- The after-neighbour buffer test: `nextTime.diff(appointmentTime) < 30`
when a next appointment was found. -/
def nextTooClose (o : Option Appointment) (time : String) : Bool :=
  match o with
  | none => false
  | some next => decide (timeDiff next.time time < 30)

/-- Models `Appointment.checkAvailability(doctorId, date, time, appointmentId)` from
the appointment model: doctor lookup, past-date check, clinic-hours check,
30-minute-granularity check, the (unreachable) 17:00-closing check, the
availability-window lookup, the exact-slot collision query, and the two
nearest-neighbour buffer queries. Returns `.ok ()` exactly when the source
resolves `true`; each `.error` is the corresponding `throw`. -/
def checkAvailability (doctors : List Doctor) (store : List Appointment)
    (clock : Nat) (doctorId date : Nat) (time : String) (excl : Option Nat) :
    Except AvailError Unit :=
  match doctors.find? (fun d => decide (d.id = doctorId)) with
  | none => .error .doctorNotFound
  | some doctor =>
    if date < clock / 1440 then .error .pastDate
    else if hourOf time < 8 ∨ 17 ≤ hourOf time then .error .outsideHours
    else if minuteOf time % 30 ≠ 0 then .error .invalidGranularity
    else if hourOf time = 17 ∧ 0 < minuteOf time then .error .afterClosing
    else if (doctor.availability.find? (fun slot =>
        decide (slot.day = weekdayOf date) &&
        decide (toMinutes slot.startTime ≤ toMinutes time) &&
        decide (toMinutes time < toMinutes slot.endTime))).isNone then
      .error .noAvailability
    else
      let relevant := relevantAppointments store doctorId date excl
      if relevant.any (fun a => decide (a.time = time)) then .error .slotTaken
      else
        let previousAppointment := maxByTime (relevant.filter (fun a => strLt a.time time))
        let nextAppointment := minByTime (relevant.filter (fun a => strLt time a.time))
        if prevTooClose previousAppointment time then .error .insufficientBuffer
        else if nextTooClose nextAppointment time then .error .insufficientBuffer
        else .ok ()

/-- Schema-level validation run by Mongoose on every save: the time-format
regex on `time`, `reason` between 10 and 500 characters, `notes` at most
1000 characters. -/
def validateDoc (a : Appointment) : Bool :=
  timeFormatValid a.time && decide (10 ≤ a.reason.data.length) &&
  decide (a.reason.data.length ≤ 500) && decide (a.notes.data.length ≤ 1000)

/-- The storage error a rejected write surfaces to the controller `catch`
blocks: Mongoose exposes its `name` and `message`. -/
structure SaveError where
  name : String
  message : String
deriving DecidableEq

/-- The error produced when the unique index
`appointmentSchema.index({ doctor: 1, date: 1, time: 1 }, { unique: true })`
rejects a write: a MongoDB duplicate-key error, whose `name` is the driver's
`MongoServerError` (not `ValidationError`). -/
def dupKeyError : SaveError :=
  { name := "MongoServerError", message := "E11000 duplicate key error" }

/-- The error produced when schema validation fails at save time. -/
def validationError : SaveError :=
  { name := "ValidationError", message := "Appointment validation failed" }

/-- The unique index on `(doctor, date, time)`. It is declared with no
partial filter, so it constrains every appointment regardless of status:
an insert collides whenever any stored appointment, cancelled or not,
already holds the same key. -/
def violatesUniqueIndex (store : List Appointment) (a : Appointment) : Bool :=
  store.any (fun b =>
    decide (b.doctor = a.doctor) && decide (b.date = a.date) && decide (b.time = a.time))

/-- The same unique index as seen by an update of an existing document:
only other documents (different `_id`) can collide. -/
def violatesUniqueIndexExcluding (store : List Appointment) (a : Appointment) : Bool :=
  store.any (fun b =>
    decide (b.id ≠ a.id) && decide (b.doctor = a.doctor) &&
    decide (b.date = a.date) && decide (b.time = a.time))

/-- Persisting one saved document: every stored record with the document's
`_id` takes its new value. -/
def saveReplace (store : List Appointment) (a : Appointment) : List Appointment :=
  store.map (fun b => if b.id = a.id then a else b)

/-- Typed outcomes of `createAppointment`, one per controller rejection
path that the booking core owns (the request-shape and role guards at the
top of the controller are upstream of the core and not modelled). -/
inductive CreateError where
  | malformedTime
  | availability (e : AvailError)
  | saveFailed (e : SaveError)
deriving DecidableEq

/-- The decision logic of `createAppointment` (controller) followed by the
`save()` pipeline of the new document: the controller validates the time
format, runs `checkAvailability` with no excluded id, and builds the new
document with `status` defaulted to `pending` and `isArchived` to `false`;
`save()` then runs schema validation, the `pre('save')` hook (which re-runs
`checkAvailability` with the fresh document `_id`, excluded - it excludes
nothing, since the id is new), and finally the unique-index insert. -/
def createCore (doctors : List Doctor) (store : List Appointment) (clock : Nat)
    (doctorId date : Nat) (time reason : String) (patientId newId : Nat) :
    Except CreateError Appointment :=
  if timeFormatValid time = false then .error .malformedTime
  else
    match checkAvailability doctors store clock doctorId date time none with
    | .error e => .error (.availability e)
    | .ok _ =>
      let appt : Appointment :=
        { id := newId, patient := patientId, doctor := doctorId, date := date,
          time := time, status := .pending, isArchived := false,
          reason := jsTrim reason, notes := "" }
      if validateDoc appt = false then .error (.saveFailed validationError)
      else
        match checkAvailability doctors store clock doctorId date time (some newId) with
        | .error e => .error (.saveFailed { name := "Error", message := availabilityMessage e })
        | .ok _ =>
          if violatesUniqueIndex store appt then .error (.saveFailed dupKeyError)
          else .ok appt

/-- The full `createAppointment` with its effect on the store: the insert happens
only on the success path; every rejection leaves the store untouched. -/
def createAppointment (doctors : List Doctor) (store : List Appointment) (clock : Nat)
    (doctorId date : Nat) (time reason : String) (patientId newId : Nat) :
    Except CreateError Appointment × List Appointment :=
  match createCore doctors store clock doctorId date time reason patientId newId with
  | .ok a => (.ok a, store ++ [a])
  | .error e => (.error e, store)

/-- An HTTP response as the controller shapes it. -/
structure Response where
  status : Nat
  message : String
  details : String
deriving DecidableEq

/-- The response mapping of `createAppointment`: a malformed time is a 400
with its own message; a `checkAvailability` rejection is a 400
`'Error de disponibilidad'` carrying the availability message as details;
an error thrown by `save()` lands in the controller's `catch`, which answers
`'Error al crear la cita'` with status 400 only when `error.name` is
`'ValidationError'`, and 500 otherwise. -/
def createResponse : Except CreateError Appointment → Response
  | .ok _ => { status := 201, message := "Cita agendada exitosamente", details := "" }
  | .error .malformedTime =>
      { status := 400, message := "Formato de hora inválido. Use HH:mm", details := "" }
  | .error (.availability e) =>
      { status := 400, message := "Error de disponibilidad", details := availabilityMessage e }
  | .error (.saveFailed e) =>
      { status := if e.name = "ValidationError" then 400 else 500,
        message := "Error al crear la cita", details := e.message }

/-- The response the spec's `SlotTaken` kind denotes: the availability
rejection carrying the exact-match collision message. -/
def slotTakenResponse : Response :=
  { status := 400, message := "Error de disponibilidad",
    details := "Ya existe una cita agendada en este horario" }

/-- The body of an update request: each field of
`const { date, time, reason, status, notes } = req.body` may be absent. -/
structure UpdateReq where
  date : Option Nat
  time : Option String
  reason : Option String
  status : Option Status
  notes : Option String
deriving DecidableEq

/-- Typed outcomes of `updateAppointment`, one per controller rejection. -/
inductive UpdateError where
  | notFound
  | notAuthorized
  | cancelledLocked
  | completedLocked
  | availability (e : AvailError)
  | statusOnlyDoctor
  | invalidTransition
  | validationFailed
  | saveFailed (e : SaveError)
deriving DecidableEq

/-- Models the role test on the authenticated record. -/
def isDoctorActor : Actor → Bool
  | .doctor _ => true
  | .patient _ => false

/-- The controllers' ownership test: a doctor owns the appointment when its
`doctor` field is their id, a patient when its `patient` field is. -/
def isOwnerOf (actor : Actor) (a : Appointment) : Bool :=
  match actor with
  | .doctor did => decide (a.doctor = did)
  | .patient pid => decide (a.patient = pid)

/-- The status-transition block of `updateAppointment` (lines 184-217).
`origStatus` is the stored status; `a1` already carries any date, time and
reason edits, and the source computes the "already happened" test from the
document's (possibly just updated) `date` and `time` fields. On the
`confirmed` branch, a transition after the appointment time into
`completed`, `cancelled` or `no-show` also sets `isArchived`; before the
appointment time only `cancelled` is allowed. All remaining combinations
answer `'Cambio de estado no permitido'`, and a non-doctor requesting any
status change is rejected outright. -/
def applyStatusChange (clock : Nat) (isDoctor : Bool) (origStatus : Status)
    (a1 : Appointment) (reqStatus : Option Status) : Except UpdateError Appointment :=
  match reqStatus with
  | none => .ok a1
  | some status =>
    if isDoctor then
      if origStatus = Status.pending ∧ (status = Status.confirmed ∨ status = Status.cancelled) then
        .ok { a1 with status := status }
      else if origStatus = Status.confirmed then
        if a1.date * 1440 + toMinutes a1.time < clock ∧
            (status = Status.completed ∨ status = Status.cancelled ∨ status = Status.noshow) then
          .ok { a1 with status := status, isArchived := true }
        else if ¬ (a1.date * 1440 + toMinutes a1.time < clock) ∧ status = Status.cancelled then
          .ok { a1 with status := status }
        else .error .invalidTransition
      else .error .invalidTransition
    else .error .statusOnlyDoctor

/-- The decision logic of `updateAppointment` (controller lines 132-221)
followed by the `save()` pipeline: lookup by id, ownership check, the
`cancelled` / `completed` modification locks, the `checkAvailability` call
(excluding the appointment's own id) that runs only when the request
actually changes the date or the time, the field edits, the
status-transition block, the notes edit, and finally schema validation and
the unique index at save time. The `pre('save')` hook would re-run the
identical `checkAvailability` call (same document id, same final date and
time against the same store), so it is not repeated. -/
def updateCore (doctors : List Doctor) (store : List Appointment) (clock : Nat)
    (id : Nat) (actor : Actor) (req : UpdateReq) : Except UpdateError Appointment :=
  match store.find? (fun a => decide (a.id = id)) with
  | none => .error .notFound
  | some appointment =>
    if isOwnerOf actor appointment = false then .error .notAuthorized
    else if appointment.status = Status.cancelled then .error .cancelledLocked
    else if appointment.status = Status.completed then .error .completedLocked
    else
      let dateChanged : Bool :=
        match req.date with
        | some d => decide (d ≠ appointment.date)
        | none => false
      let timeChanged : Bool :=
        match req.time with
        | some t => decide (t ≠ appointment.time)
        | none => false
      let availRes : Except AvailError Unit :=
        if dateChanged || timeChanged then
          checkAvailability doctors store clock appointment.doctor
            (req.date.getD appointment.date) (req.time.getD appointment.time)
            (some appointment.id)
        else .ok ()
      match availRes with
      | .error e => .error (.availability e)
      | .ok _ =>
        let a1 : Appointment :=
          { appointment with
            date := req.date.getD appointment.date,
            time := req.time.getD appointment.time,
            reason := (req.reason.map jsTrim).getD appointment.reason }
        match applyStatusChange clock (isDoctorActor actor) appointment.status a1 req.status with
        | .error e => .error e
        | .ok a2 =>
          let a3 : Appointment := { a2 with notes := (req.notes.map jsTrim).getD a2.notes }
          if validateDoc a3 = false then .error .validationFailed
          else if (dateChanged || timeChanged) && violatesUniqueIndexExcluding store a3 then
            .error (.saveFailed dupKeyError)
          else .ok a3

/-- The full `updateAppointment` with its effect on the store: the document is
persisted only by the final `save()`; every rejection path returns before
it, leaving the store untouched. -/
def updateAppointment (doctors : List Doctor) (store : List Appointment) (clock : Nat)
    (id : Nat) (actor : Actor) (req : UpdateReq) :
    Except UpdateError Appointment × List Appointment :=
  match updateCore doctors store clock id actor req with
  | .ok a => (.ok a, saveReplace store a)
  | .error e => (.error e, store)

/-- Typed outcomes of `cancelAppointment`. -/
inductive CancelError where
  | notFound
  | notAuthorized
  | alreadyCancelled
  | completedLocked
  | patientPastCancel
deriving DecidableEq

/-- The decision logic of `cancelAppointment` (controller lines 298-352):
lookup, ownership, the already-cancelled and completed guards, and the
same-day asymmetry (a patient may not cancel an appointment dated today or
earlier; a doctor may). On success the document's status becomes
`cancelled` - and nothing else changes: `isArchived` is left as it was. -/
def cancelCore (store : List Appointment) (clock : Nat) (id : Nat) (actor : Actor) :
    Except CancelError Appointment :=
  match store.find? (fun a => decide (a.id = id)) with
  | none => .error .notFound
  | some appointment =>
    if isOwnerOf actor appointment = false then .error .notAuthorized
    else if appointment.status = Status.cancelled then .error .alreadyCancelled
    else if appointment.status = Status.completed then .error .completedLocked
    else if isDoctorActor actor = false ∧ appointment.date ≤ clock / 1440 then
      .error .patientPastCancel
    else .ok { appointment with status := Status.cancelled }

/-- The full `cancelAppointment` with its effect on the store. -/
def cancelAppointment (store : List Appointment) (clock : Nat) (id : Nat) (actor : Actor) :
    Except CancelError Appointment × List Appointment :=
  match cancelCore store clock id actor with
  | .ok a => (.ok a, saveReplace store a)
  | .error e => (.error e, store)

/-- The query of the archival sweep: `status: 'confirmed'`,
`date: { $lt: yesterday }` with `yesterday` the current instant minus one
day, `isArchived: false`. -/
def sweepMatches (clock : Nat) (a : Appointment) : Bool :=
  decide (a.status = Status.confirmed) &&
  decide ((a.date * 1440 : Int) < (clock : Int) - 1440) &&
  decide (a.isArchived = false)

/-- The per-record loop of `updatePastAppointments`: each matched record is
marked `completed` and archived and saved in turn. A save failure throws
out of the loop into the surrounding `catch`, which logs once and makes the
whole call return 0 - the records already saved stay saved, the remaining
ones are left untouched. `fails` models which record saves the storage
layer rejects. -/
def sweepGo (fails : Appointment → Bool) (total : Nat) :
    List Appointment → List Appointment → List Appointment × Nat
  | [], s => (s, total)
  | a :: rest, s =>
    if fails a then (s, 0)
    else sweepGo fails total rest
      (saveReplace s { a with status := Status.completed, isArchived := true })

/-- Models `updatePastAppointments`: query the matched records, update them one by
one, and return `pastAppointments.length` when the loop completes (the
matched count, which equals the updated count only when every save
succeeded). -/
def updatePastAppointments (clock : Nat) (fails : Appointment → Bool)
    (store : List Appointment) : List Appointment × Nat :=
  let past := store.filter (sweepMatches clock)
  sweepGo fails past.length past store

/-- The buffer invariant of the spec, stated over minute values: two
non-cancelled appointments of one doctor on one date, the earlier strictly
before the later, are at least 30 minutes apart. -/
def bufferInvariant (store : List Appointment) : Prop :=
  ∀ a ∈ store, ∀ b ∈ store,
    a.doctor = b.doctor → a.date = b.date →
    a.status ≠ Status.cancelled → b.status ≠ Status.cancelled →
    toMinutes a.time < toMinutes b.time →
    toMinutes a.time + 30 ≤ toMinutes b.time

/-- A doctor open on Mondays from 08:00 to 12:00. -/
def demoDoctor : Doctor :=
  { id := 1, availability := [{ day := .monday, startTime := "08:00", endTime := "12:00" }] }

/-- The doctor directory of the concrete scenarios. -/
def demoDoctors : List Doctor := [demoDoctor]

/-- A cancelled appointment of `demoDoctor` on day 4 (a Monday) at 09:00. -/
def cancelledAt9 : Appointment :=
  { id := 10, patient := 2, doctor := 1, date := 4, time := "09:00",
    status := .cancelled, isArchived := false,
    reason := "Dolor de cabeza fuerte", notes := "" }

example : timeFormatValid "08:00" = true := by decide
example : timeFormatValid "8:00" = true := by decide
example : timeFormatValid "24:00" = false := by decide
example : toMinutes "09:30" = 570 := by decide
example : strLt "08:00" "09:00" = true := by decide
example : strLt "9:00" "16:00" = false := by decide
example : checkAvailability demoDoctors [cancelledAt9] 0 1 4 "09:00" none = .ok () := by decide
example : (createAppointment demoDoctors [cancelledAt9] 0 1 4 "09:00" "Dolor de cabeza fuerte" 2 7).1
    = .error (.saveFailed dupKeyError) := by decide

/-! ## Helper lemmas -/

theorem charToNat_inj {a b : Char} (h : a.toNat = b.toNat) : a = b :=
  Char.eq_of_val_eq (UInt32.ext h)

theorem findCongr {α : Type} {p q : α → Bool} (l : List α) (h : ∀ a ∈ l, p a = q a) :
    l.find? p = l.find? q := by
  induction l with
  | nil => rfl
  | cons a l ih =>
    have ha := h a (List.mem_cons_self a l)
    simp only [List.find?]
    rw [ha]
    cases q a
    · exact ih (fun b hb => h b (List.mem_cons_of_mem a hb))
    · rfl

/-- Excluding an id no stored appointment carries filters nothing out. -/
theorem relevantAppointments_fresh (store : List Appointment) (doctorId date nid : Nat)
    (hfresh : ∀ a ∈ store, a.id ≠ nid) :
    relevantAppointments store doctorId date (some nid) =
      relevantAppointments store doctorId date none := by
  unfold relevantAppointments
  refine List.filter_congr (fun a ha => ?_)
  simp [notExcluded, hfresh a ha]

/-- Running `checkAvailability` with a fresh id to exclude (the new document's
`_id` in the `pre('save')` hook) agrees with the run that excludes
nothing. -/
theorem checkAvailability_fresh (doctors : List Doctor) (store : List Appointment)
    (clock doctorId date : Nat) (time : String) (nid : Nat)
    (hfresh : ∀ a ∈ store, a.id ≠ nid) :
    checkAvailability doctors store clock doctorId date time (some nid) =
      checkAvailability doctors store clock doctorId date time none := by
  unfold checkAvailability
  rw [relevantAppointments_fresh store doctorId date nid hfresh]

/-- A slot that passes `checkAvailability` passed the 30-minute granularity
check. -/
theorem checkAvailability_ok_minute {doctors : List Doctor} {store : List Appointment}
    {clock doctorId date : Nat} {time : String} {excl : Option Nat} {u : Unit}
    (h : checkAvailability doctors store clock doctorId date time excl = .ok u) :
    minuteOf time % 30 = 0 := by
  unfold checkAvailability at h
  split at h
  · simp at h
  · split at h
    · simp at h
    · split at h
      · simp at h
      · split at h
        · simp at h
        · omega

theorem toMinutes_mod30 {t : String} (h : minuteOf t % 30 = 0) :
    toMinutes t % 30 = 0 := by
  unfold toMinutes
  omega

/-- A record the sweep has just promoted no longer matches the sweep
query. -/
theorem sweepMatches_completed (clock : Nat) (a : Appointment) :
    sweepMatches clock { a with status := Status.completed, isArchived := true } = false := by
  simp [sweepMatches]

/-- When no save fails, the sweep loop runs to the end and reports the
matched count it was given. -/
theorem sweepGo_noFail_count (total : Nat) :
    ∀ (l s : List Appointment), (sweepGo (fun _ => false) total l s).2 = total := by
  intro l
  induction l with
  | nil => intro s; rfl
  | cons a rest ih => intro s; simpa [sweepGo] using ih _

/-- When some record of the processing list fails to save, the loop is
aborted by the surrounding catch and the call reports 0. -/
theorem sweepGo_fail_count (fails : Appointment → Bool) (total : Nat) :
    ∀ (l s : List Appointment), (∃ a ∈ l, fails a = true) →
      (sweepGo fails total l s).2 = 0 := by
  intro l
  induction l with
  | nil => intro s h; simp at h
  | cons a rest ih =>
    intro s h
    by_cases hfa : fails a = true
    · simp [sweepGo, hfa]
    · rcases h with ⟨b, hb, hfb⟩
      rcases List.mem_cons.mp hb with rfl | hb'
      · exact absurd hfb hfa
      · simp only [sweepGo, hfa, if_neg, Bool.false_eq_true, not_false_iff, ite_false]
        exact ih _ ⟨b, hb', hfb⟩

/-- After a failure-free pass over a processing list containing (at least)
every record of the store that matches the sweep query, no record of the
resulting store matches it any more. -/
theorem sweepGo_clears (clock total : Nat) :
    ∀ (l s : List Appointment),
      (∀ x ∈ s, sweepMatches clock x = false ∨ x.id ∈ l.map (fun a => a.id)) →
      ∀ x ∈ (sweepGo (fun _ => false) total l s).1, sweepMatches clock x = false := by
  intro l
  induction l with
  | nil =>
    intro s h x hx
    rcases h x hx with h' | h'
    · exact h'
    · simp at h'
  | cons a rest ih =>
    intro s h x hx
    simp only [sweepGo, Bool.false_eq_true, if_false] at hx
    refine ih _ (fun y hy => ?_) x hx
    rcases List.mem_map.mp hy with ⟨b, hb, rfl⟩
    by_cases hid : b.id = a.id
    · simp only [hid, if_pos]
      exact Or.inl (sweepMatches_completed clock a)
    · simp only [hid, if_neg, not_false_iff]
      rcases h b hb with h' | h'
      · exact Or.inl h'
      · rcases List.mem_map.mp h' with ⟨c, hc, hcid⟩
        rcases List.mem_cons.mp hc with rfl | hc'
        · exact absurd hcid.symm hid
        · exact Or.inr (List.mem_map.mpr ⟨c, hc', hcid⟩)

/-- A character in the regex class `[0-9]`. -/
def isDigitChar (c : Char) : Prop := 48 ≤ c.toNat ∧ c.toNat ≤ 57

instance (c : Char) : Decidable (isDigitChar c) := by unfold isDigitChar; infer_instance

theorem colon_of_toNat {c : Char} (h : c.toNat = 58) : c = ':' :=
  charToNat_inj (by rw [h]; rfl)

/-! ## Claims C6 and C7: the archival sweep -/

/-- A confirmed, unarchived appointment dated well in the past (day 5). -/
def confirmedPastA : Appointment :=
  { id := 1, patient := 2, doctor := 1, date := 5, time := "08:00",
    status := .confirmed, isArchived := false,
    reason := "Consulta general basica", notes := "" }

/-- A second confirmed, unarchived appointment dated in the past. -/
def confirmedPastB : Appointment :=
  { id := 2, patient := 3, doctor := 1, date := 5, time := "09:00",
    status := .confirmed, isArchived := false,
    reason := "Consulta general basica", notes := "" }

/-- A storage layer that rejects the save of record 1 only. -/
def failsFirstSave (a : Appointment) : Bool := decide (a.id = 1)

/-- C6, counterexample. Two records match the sweep query; the save of the
first fails. The code's `catch` wraps the whole loop, so the run returns
a count of 0 - not 1 - and the second matched record is left untouched
(it still matches the query afterwards), contradicting the claim that the
failure is skipped, the rest of the batch processed, and the count made of
the successful updates. -/
theorem C6_sweep_abort_counterexample :
    updatePastAppointments 14400 failsFirstSave [confirmedPastA, confirmedPastB]
        = ([confirmedPastA, confirmedPastB], 0)
      ∧ sweepMatches 14400 confirmedPastA = true
      ∧ sweepMatches 14400 confirmedPastB = true := by
  refine ⟨by decide, by decide, by decide⟩

/-- C6, amended: `updatePastAppointments` is not best-effort per record.
On a failure-free run it returns the number of matched (hence updated)
records; but when the save of any matched record fails, the error aborts
the whole run at that record and the call returns 0, whatever had already
been updated. -/
theorem C6_sweep_count_amended :
    (∀ (clock : Nat) (store : List Appointment),
        (updatePastAppointments clock (fun _ => false) store).2
          = (store.filter (sweepMatches clock)).length)
    ∧ (∀ (clock : Nat) (fails : Appointment → Bool) (store : List Appointment),
        (∃ a ∈ store.filter (sweepMatches clock), fails a = true) →
        (updatePastAppointments clock fails store).2 = 0) := by
  constructor
  · intro clock store
    unfold updatePastAppointments
    exact sweepGo_noFail_count _ _ store
  · intro clock fails store h
    unfold updatePastAppointments
    exact sweepGo_fail_count fails _ _ store h

/-- Witness for `C6_sweep_count_amended`: on the two-record scenario the
failure-free run counts 2, and the aborting run counts 0. -/
theorem C6_sweep_count_amended_witness :
    (updatePastAppointments 14400 (fun _ => false) [confirmedPastA, confirmedPastB]).2 = 2
    ∧ (updatePastAppointments 14400 failsFirstSave [confirmedPastA, confirmedPastB]).2 = 0 := by
  constructor
  · have h := C6_sweep_count_amended.1 14400 [confirmedPastA, confirmedPastB]
    rw [h]; decide
  · exact C6_sweep_count_amended.2 14400 failsFirstSave [confirmedPastA, confirmedPastB]
      ⟨confirmedPastA, by decide, by decide⟩

/-- C7: the archival sweep is idempotent. A failure-free run promotes every
matched record out of the sweep query (to `completed`, archived), so an
immediate second run over the resulting store matches nothing and counts
0. -/
theorem C7_sweep_idempotent (clock : Nat) (store : List Appointment) :
    (updatePastAppointments clock (fun _ => false)
        ((updatePastAppointments clock (fun _ => false) store).1)).2 = 0 := by
  have h1 : ∀ x ∈ (updatePastAppointments clock (fun _ => false) store).1,
      sweepMatches clock x = false := by
    unfold updatePastAppointments
    refine sweepGo_clears clock _ _ store (fun x hx => ?_)
    cases hm : sweepMatches clock x with
    | false => exact Or.inl rfl
    | true => exact Or.inr (List.mem_map.mpr ⟨x, List.mem_filter.mpr ⟨hx, hm⟩, rfl⟩)
  set s1 := (updatePastAppointments clock (fun _ => false) store).1 with hs1
  have h2 : s1.filter (sweepMatches clock) = [] :=
    List.filter_eq_nil_iff.mpr (fun a ha => by simp [h1 a ha])
  unfold updatePastAppointments
  rw [h2]
  rfl

/-! ## Claim C9: the time-format validation -/

/-- C9, counterexample. The format regex accepts the single-digit hour
string built of the four characters `8:00` (its hour alternative
`[0-1]?[0-9]` makes the leading digit optional), so strings outside the
exact two-digit `HH:MM` shape are not all rejected. -/
theorem C9_time_format_counterexample :
    timeFormatValid "8:00" = true ∧ "8:00".data.length = 4 := by decide

/-- C9, amended: the validation accepts exactly the strings `H:MM` (any
single digit hour 0-9) and `HH:MM` (two-digit hour of value at most 23),
with a two-digit minute of value at most 59; in particular a single-digit
hour such as `8:00` is accepted, not rejected. -/
theorem C9_time_format_amended (s : String) :
    timeFormatValid s = true ↔
      ((∃ h m1 m2 : Char, s.data = [h, ':', m1, m2] ∧
          isDigitChar h ∧ isDigitChar m1 ∧ isDigitChar m2 ∧
          parseDigits [m1, m2] ≤ 59)
        ∨ (∃ h1 h2 m1 m2 : Char, s.data = [h1, h2, ':', m1, m2] ∧
            isDigitChar h1 ∧ isDigitChar h2 ∧ isDigitChar m1 ∧ isDigitChar m2 ∧
            parseDigits [h1, h2] ≤ 23 ∧ parseDigits [m1, m2] ≤ 59)) := by
  obtain ⟨l⟩ := s
  rcases l with _ | ⟨a, _ | ⟨b, _ | ⟨c, _ | ⟨d, _ | ⟨e, _ | ⟨f, rest⟩⟩⟩⟩⟩⟩ <;>
    simp only [timeFormatValid, isDigitChar, parseDigits, List.foldl,
      Bool.and_eq_true, Bool.or_eq_true, decide_eq_true_eq, List.cons.injEq,
      List.nil_eq, reduceCtorEq, false_and, and_false, exists_const,
      or_self, iff_false, not_false_iff, Bool.false_eq_true, exists_and_left,
      and_true, true_and, or_false, false_or]
  · constructor
    · rintro ⟨⟨⟨hb, ha1, ha2⟩, hc1, hc2⟩, hd1, hd2⟩
      exact ⟨a, c, d, ⟨rfl, colon_of_toNat hb, rfl, rfl⟩, ⟨ha1, ha2⟩,
        ⟨hc1, by omega⟩, ⟨hd1, hd2⟩, by omega⟩
    · rintro ⟨h, m1, m2, ⟨rfl, rfl, rfl, rfl⟩, ⟨h1, h2⟩, ⟨m11, m12⟩, ⟨m21, m22⟩, hb⟩
      exact ⟨⟨⟨by decide, h1, h2⟩, m11, by omega⟩, m21, m22⟩
  · constructor
    · rintro ⟨⟨⟨hc, halt⟩, hd1, hd2⟩, he1, he2⟩
      refine ⟨a, b, d, e, ⟨rfl, rfl, colon_of_toNat hc, rfl, rfl⟩, ?_, ?_,
        ⟨hd1, by omega⟩, ⟨he1, he2⟩, ?_, by omega⟩ <;> omega
    · rintro ⟨h1, h2, m1, m2, ⟨rfl, rfl, rfl, rfl, rfl⟩,
        ⟨a1, a2⟩, ⟨b1, b2⟩, ⟨c1, c2⟩, ⟨d1, d2⟩, hh, hm⟩
      exact ⟨⟨⟨by decide, by omega⟩, c1, by omega⟩, d1, d2⟩

/-! ## Claim C1: the buffer invariant -/

theorem grid_pair {x y : Nat} (hx : x % 30 = 0) (hy : y % 30 = 0) (h : x < y) :
    x + 30 ≤ y := by omega

/-- C1: the buffer invariant is preserved. If every stored non-cancelled
appointment of the target doctor and date sits on the 30-minute grid (as
every appointment admitted by `checkAvailability` does) and the store
satisfies the buffer invariant, then it still holds after a
`createAppointment` insert gated by `checkAvailability` (first conjunct)
and after a date/time-changing `updateAppointment` that replaces the edited
appointment's slot with one gated by `checkAvailability` excluding its own
id (second conjunct): the granularity check forces every admitted time onto
the 30-minute grid, so two distinct non-cancelled times of one doctor/date
are always at least 30 minutes apart. -/
theorem C1_buffer_invariant_preserved :
    (∀ (doctors : List Doctor) (store : List Appointment) (clock doctorId date : Nat)
        (time : String) (excl : Option Nat) (u : Unit) (n : Appointment),
        bufferInvariant store →
        (∀ a ∈ store, a.doctor = doctorId → a.date = date → a.status ≠ Status.cancelled →
          minuteOf a.time % 30 = 0) →
        checkAvailability doctors store clock doctorId date time excl = .ok u →
        n.doctor = doctorId → n.date = date → n.time = time →
        bufferInvariant (store ++ [n]))
    ∧ (∀ (doctors : List Doctor) (store : List Appointment) (clock doctorId ndate : Nat)
        (ntime : String) (aid : Nat) (u : Unit) (n : Appointment),
        bufferInvariant store →
        (∀ a ∈ store, a.doctor = doctorId → a.date = ndate → a.status ≠ Status.cancelled →
          minuteOf a.time % 30 = 0) →
        checkAvailability doctors store clock doctorId ndate ntime (some aid) = .ok u →
        n.doctor = doctorId → n.date = ndate → n.time = ntime →
        bufferInvariant (store.map (fun b => if b.id = aid then n else b))) := by
  constructor
  · intro doctors store clock doctorId date time excl u n h1 h2 h3 hnd hndate hnt
    have hng : toMinutes n.time % 30 = 0 := by
      rw [hnt]; exact toMinutes_mod30 (checkAvailability_ok_minute h3)
    intro x hx y hy hdoc hdate hxs hys hlt
    rcases List.mem_append.mp hx with hx' | hx' <;>
      rcases List.mem_append.mp hy with hy' | hy'
    · exact h1 x hx' y hy' hdoc hdate hxs hys hlt
    · have hyn : y = n := List.mem_singleton.mp hy'
      subst hyn
      have hgx : toMinutes x.time % 30 = 0 :=
        toMinutes_mod30 (h2 x hx' (hdoc.trans hnd) (hdate.trans hndate) hxs)
      exact grid_pair hgx hng hlt
    · have hxn : x = n := List.mem_singleton.mp hx'
      subst hxn
      have hgy : toMinutes y.time % 30 = 0 :=
        toMinutes_mod30 (h2 y hy' (hdoc.symm.trans hnd) (hdate.symm.trans hndate) hys)
      exact grid_pair hng hgy hlt
    · have hxn : x = n := List.mem_singleton.mp hx'
      have hyn : y = n := List.mem_singleton.mp hy'
      subst hxn; subst hyn
      exact absurd hlt (lt_irrefl _)
  · intro doctors store clock doctorId ndate ntime aid u n h1 h2 h3 hnd hndate hnt
    have hng : toMinutes n.time % 30 = 0 := by
      rw [hnt]; exact toMinutes_mod30 (checkAvailability_ok_minute h3)
    intro x hx y hy hdoc hdate hxs hys hlt
    rcases List.mem_map.mp hx with ⟨b, hb, hbx⟩
    rcases List.mem_map.mp hy with ⟨c, hc, hcy⟩
    by_cases hbid : b.id = aid <;> by_cases hcid : c.id = aid <;>
      simp only [hbid, hcid, if_pos, if_neg, not_false_iff] at hbx hcy
    · subst hbx; subst hcy
      exact absurd hlt (lt_irrefl _)
    · subst hbx; subst hcy
      have hgc : toMinutes c.time % 30 = 0 :=
        toMinutes_mod30 (h2 c hc (hdoc.symm.trans hnd) (hdate.symm.trans hndate) hys)
      exact grid_pair hng hgc hlt
    · subst hbx; subst hcy
      have hgb : toMinutes b.time % 30 = 0 :=
        toMinutes_mod30 (h2 b hb (hdoc.trans hnd) (hdate.trans hndate) hxs)
      exact grid_pair hgb hng hlt
    · subst hbx; subst hcy
      exact h1 b hb c hc hdoc hdate hxs hys hlt

/-- A pending appointment of `demoDoctor` on the Monday day 4 at 08:00. -/
def existingAt8 : Appointment :=
  { id := 20, patient := 2, doctor := 1, date := 4, time := "08:00",
    status := .pending, isArchived := false,
    reason := "Consulta general basica", notes := "" }

/-- A new pending appointment one hour later on the same day. -/
def newAt9 : Appointment :=
  { id := 21, patient := 3, doctor := 1, date := 4, time := "09:00",
    status := .pending, isArchived := false,
    reason := "Chequeo anual de rutina", notes := "" }

/-- Witness for `C1_buffer_invariant_preserved`: inserting the 09:00
appointment next to the stored 08:00 one, after `checkAvailability`
accepts it, keeps the buffer invariant. -/
theorem C1_buffer_invariant_preserved_witness :
    bufferInvariant ([existingAt8] ++ [newAt9]) :=
  C1_buffer_invariant_preserved.1 demoDoctors [existingAt8] 0 1 4 "09:00" none () newAt9
    (by unfold bufferInvariant; decide) (by decide) (by decide) (by decide) (by decide)
    (by decide)

/-! ## Claims C2 and C3: the unique index and write-time duplicates -/

/-- Shared helper: when the requested slot passes the controller's format
check and `checkAvailability`, but some stored appointment - of any status,
cancelled included - already holds the same `(doctor, date, time)` key, the
insert is rejected by the unique index and `createAppointment` returns the
duplicate-key save failure with the store unchanged. -/
theorem createAppointment_dup_of_slot_occupied
    (doctors : List Doctor) (store : List Appointment) (clock doctorId date : Nat)
    (time reason : String) (patientId newId : Nat)
    (hfresh : ∀ a ∈ store, a.id ≠ newId)
    (hfmt : timeFormatValid time = true)
    (hreason : 10 ≤ (jsTrim reason).length ∧ (jsTrim reason).length ≤ 500)
    (havail : checkAvailability doctors store clock doctorId date time none = .ok ())
    (hslot : ∃ b ∈ store, b.doctor = doctorId ∧ b.date = date ∧ b.time = time) :
    createAppointment doctors store clock doctorId date time reason patientId newId
      = (.error (.saveFailed dupKeyError), store) := by
  have hdup : violatesUniqueIndex store
      { id := newId, patient := patientId, doctor := doctorId, date := date,
        time := time, status := .pending, isArchived := false,
        reason := jsTrim reason, notes := "" } = true := by
    rcases hslot with ⟨b, hb, hbd, hbdate, hbt⟩
    exact List.any_eq_true.mpr ⟨b, hb, by simp [hbd, hbdate, hbt]⟩
  unfold createAppointment createCore
  rw [checkAvailability_fresh doctors store clock doctorId date time newId hfresh, havail]
  simp only [hfmt, Bool.true_eq_false, if_false, ite_false, hdup, if_true, ite_true]
  have hval : validateDoc
      { id := newId, patient := patientId, doctor := doctorId, date := date,
        time := time, status := .pending, isArchived := false,
        reason := jsTrim reason, notes := "" } = true := by
    simp [validateDoc, hfmt, hreason.1, hreason.2]
  simp [hval, hdup]

/-- C2, counterexample. The only stored appointment at the slot
`(doctor 1, Monday day 4, 09:00)` is cancelled, the new request satisfies
every validity rule and passes the Conflict Checker - yet the insert does
not succeed: the unique index on `(doctor, date, time)` has no status
filter, so the cancelled appointment collides with the new one and the
write is rejected. -/
theorem C2_cancelled_blocks_rebooking_counterexample :
    checkAvailability demoDoctors [cancelledAt9] 0 1 4 "09:00" none = .ok ()
    ∧ createAppointment demoDoctors [cancelledAt9] 0 1 4 "09:00"
        "Dolor de cabeza fuerte" 2 7
        = (.error (.saveFailed dupKeyError), [cancelledAt9]) := by
  constructor
  · decide
  · decide

/-- C2, amended: when every validity rule holds but some stored appointment
- even one whose status is cancelled - already occupies the requested
`(doctorId, date, time)`, the request passes the Conflict Checker and the
insert then fails with the duplicate-key storage error, because the
persistence-layer uniqueness constraint applies to all appointments
regardless of status. -/
theorem C2_rebooking_blocked_amended
    (doctors : List Doctor) (store : List Appointment) (clock doctorId date : Nat)
    (time reason : String) (patientId newId : Nat)
    (hfresh : ∀ a ∈ store, a.id ≠ newId)
    (hfmt : timeFormatValid time = true)
    (hreason : 10 ≤ (jsTrim reason).length ∧ (jsTrim reason).length ≤ 500)
    (havail : checkAvailability doctors store clock doctorId date time none = .ok ())
    (hslot : ∃ b ∈ store, b.doctor = doctorId ∧ b.date = date ∧ b.time = time) :
    createAppointment doctors store clock doctorId date time reason patientId newId
      = (.error (.saveFailed dupKeyError), store) :=
  createAppointment_dup_of_slot_occupied doctors store clock doctorId date time reason
    patientId newId hfresh hfmt hreason havail hslot

/-- Witness for `C2_rebooking_blocked_amended` on the cancelled-slot
scenario. -/
theorem C2_rebooking_blocked_amended_witness :
    createAppointment demoDoctors [cancelledAt9] 0 1 4 "09:00"
        "Dolor de cabeza fuerte" 2 11
      = (.error (.saveFailed dupKeyError), [cancelledAt9]) :=
  C2_rebooking_blocked_amended demoDoctors [cancelledAt9] 0 1 4 "09:00"
    "Dolor de cabeza fuerte" 2 11 (by decide) (by decide) (by decide) (by decide)
    ⟨cancelledAt9, by decide, by decide, by decide, by decide⟩

/-- C3, counterexample. On the very write-time uniqueness violation of the
cancelled-slot scenario, `createAppointment` answers the generic
`'Error al crear la cita'` with status 500 (the duplicate-key error is not
named `ValidationError`), not the `SlotTaken` availability response. -/
theorem C3_dup_surfaces_generic_counterexample :
    createResponse (createAppointment demoDoctors [cancelledAt9] 0 1 4 "09:00"
        "Dolor de cabeza fuerte" 2 8).1
      = { status := 500, message := "Error al crear la cita",
          details := "E11000 duplicate key error" }
    ∧ createResponse (createAppointment demoDoctors [cancelledAt9] 0 1 4 "09:00"
        "Dolor de cabeza fuerte" 2 8).1 ≠ slotTakenResponse := by
  constructor
  · decide
  · decide

/-- C3, amended: whenever the persistence layer rejects the insert because
another appointment holds the same `(doctorId, date, time)` key,
`createAppointment` surfaces the generic 500 `'Error al crear la cita'`
storage response - not the `SlotTaken` kind - since the controller's catch
maps every save error not named `ValidationError` to that generic
response. -/
theorem C3_dup_surfaces_generic_amended
    (doctors : List Doctor) (store : List Appointment) (clock doctorId date : Nat)
    (time reason : String) (patientId newId : Nat)
    (hfresh : ∀ a ∈ store, a.id ≠ newId)
    (hfmt : timeFormatValid time = true)
    (hreason : 10 ≤ (jsTrim reason).length ∧ (jsTrim reason).length ≤ 500)
    (havail : checkAvailability doctors store clock doctorId date time none = .ok ())
    (hslot : ∃ b ∈ store, b.doctor = doctorId ∧ b.date = date ∧ b.time = time) :
    createResponse (createAppointment doctors store clock doctorId date time reason
        patientId newId).1
      = { status := 500, message := "Error al crear la cita",
          details := dupKeyError.message }
    ∧ createResponse (createAppointment doctors store clock doctorId date time reason
        patientId newId).1 ≠ slotTakenResponse := by
  have h := createAppointment_dup_of_slot_occupied doctors store clock doctorId date time
    reason patientId newId hfresh hfmt hreason havail hslot
  have h1 : (createAppointment doctors store clock doctorId date time reason
      patientId newId).1 = Except.error (CreateError.saveFailed dupKeyError) := by rw [h]
  rw [h1]
  constructor
  · decide
  · decide

/-- Witness for `C3_dup_surfaces_generic_amended` on the cancelled-slot
scenario. -/
theorem C3_dup_surfaces_generic_amended_witness :
    createResponse (createAppointment demoDoctors [cancelledAt9] 0 1 4 "09:00"
        "Dolor de cabeza fuerte" 2 9).1
      = { status := 500, message := "Error al crear la cita",
          details := dupKeyError.message }
    ∧ createResponse (createAppointment demoDoctors [cancelledAt9] 0 1 4 "09:00"
        "Dolor de cabeza fuerte" 2 9).1 ≠ slotTakenResponse :=
  C3_dup_surfaces_generic_amended demoDoctors [cancelledAt9] 0 1 4 "09:00"
    "Dolor de cabeza fuerte" 2 9 (by decide) (by decide) (by decide) (by decide)
    ⟨cancelledAt9, by decide, by decide, by decide, by decide⟩

/-! ## Claims C4, C5, C8, C10: updateAppointment and cancelAppointment -/

theorem updateAppointment_fst (doctors : List Doctor) (store : List Appointment)
    (clock id : Nat) (actor : Actor) (req : UpdateReq) :
    (updateAppointment doctors store clock id actor req).1
      = updateCore doctors store clock id actor req := by
  unfold updateAppointment
  cases h : updateCore doctors store clock id actor req <;> simp

theorem cancelAppointment_fst (store : List Appointment) (clock id : Nat) (actor : Actor) :
    (cancelAppointment store clock id actor).1 = cancelCore store clock id actor := by
  unfold cancelAppointment
  cases h : cancelCore store clock id actor <;> simp

/-- A no-show appointment of doctor 1. -/
def noshowAppt : Appointment :=
  { id := 5, patient := 2, doctor := 1, date := 9, time := "10:00",
    status := .noshow, isArchived := false,
    reason := "Revision de resultados", notes := "" }

/-- An update request that only replaces the reason. -/
def reasonOnlyReq : UpdateReq :=
  { date := none, time := none, reason := some "Nueva razon de consulta medica",
    status := none, notes := none }

/-- C4, counterexample. The modification guard checks only `cancelled` and
`completed`: a `no-show` appointment is not blocked, so a request replacing
its reason is accepted and persisted, contradicting the claim that
`no-show` is terminal for edits. -/
theorem C4_noshow_editable_counterexample :
    updateAppointment demoDoctors [noshowAppt] 0 5 (Actor.doctor 1) reasonOnlyReq
      = (.ok { noshowAppt with reason := "Nueva razon de consulta medica" },
         [{ noshowAppt with reason := "Nueva razon de consulta medica" }])
    ∧ "Nueva razon de consulta medica" ≠ noshowAppt.reason := by
  constructor
  · decide
  · decide

/-- C4, amended: only `cancelled` and `completed` lock an appointment
against `updateAppointment`, and they lock it completely - every update
request by the owner, whatever fields it carries (notes included), is
rejected with the corresponding error and the store is unchanged.
`no-show` does not block edits (see the counterexample). -/
theorem C4_terminal_locks_amended
    (doctors : List Doctor) (store : List Appointment) (clock id : Nat)
    (actor : Actor) (req : UpdateReq) (a : Appointment)
    (hfind : store.find? (fun x => decide (x.id = id)) = some a)
    (howner : isOwnerOf actor a = true) :
    (a.status = Status.cancelled →
      updateAppointment doctors store clock id actor req
        = (.error .cancelledLocked, store))
    ∧ (a.status = Status.completed →
      updateAppointment doctors store clock id actor req
        = (.error .completedLocked, store)) := by
  constructor <;> intro hs <;>
    simp [updateAppointment, updateCore, hfind, howner, hs]

/-- A completed appointment of doctor 1. -/
def completedAppt : Appointment :=
  { id := 12, patient := 2, doctor := 1, date := 9, time := "11:00",
    status := .completed, isArchived := false,
    reason := "Consulta general basica", notes := "" }

/-- Witness for `C4_terminal_locks_amended`: a cancelled and a completed
appointment each reject a reason edit, leaving their stores unchanged. -/
theorem C4_terminal_locks_amended_witness :
    updateAppointment demoDoctors [cancelledAt9] 0 10 (Actor.doctor 1) reasonOnlyReq
        = (.error .cancelledLocked, [cancelledAt9])
    ∧ updateAppointment demoDoctors [completedAppt] 0 12 (Actor.doctor 1) reasonOnlyReq
        = (.error .completedLocked, [completedAppt]) :=
  ⟨(C4_terminal_locks_amended demoDoctors [cancelledAt9] 0 10 (Actor.doctor 1)
      reasonOnlyReq cancelledAt9 (by decide) (by decide)).1 (by decide),
   (C4_terminal_locks_amended demoDoctors [completedAppt] 0 12 (Actor.doctor 1)
      reasonOnlyReq completedAppt (by decide) (by decide)).2 (by decide)⟩

/-- C10: atomicity of rejected status changes. Whenever `updateAppointment`
answers `'Cambio de estado no permitido'`, it returned before `save()`:
the store - hence the stored appointment - is completely unchanged, even if
the request also carried date, time, reason or notes edits. -/
theorem C10_rejected_transition_atomic
    (doctors : List Doctor) (store : List Appointment) (clock id : Nat)
    (actor : Actor) (req : UpdateReq)
    (h : (updateAppointment doctors store clock id actor req).1
        = .error UpdateError.invalidTransition) :
    (updateAppointment doctors store clock id actor req).2 = store := by
  unfold updateAppointment at h ⊢
  cases hc : updateCore doctors store clock id actor req with
  | ok a => rw [hc] at h; simp at h
  | error e => rfl

/-- A pending appointment of doctor 1. -/
def pendingAppt : Appointment :=
  { id := 6, patient := 2, doctor := 1, date := 9, time := "10:00",
    status := .pending, isArchived := false,
    reason := "Consulta general basica", notes := "" }

/-- A request asking for the illegal transition pending to completed while
also editing the reason. -/
def invalidTransitionReq : UpdateReq :=
  { date := none, time := none, reason := some "Razon actualizada valida",
    status := some .completed, notes := none }

/-- Witness for `C10_rejected_transition_atomic`: the illegal
pending-to-completed request, though it also carries a reason edit, leaves
the store exactly as it was. -/
theorem C10_rejected_transition_atomic_witness :
    (updateAppointment demoDoctors [pendingAppt] 0 6 (Actor.doctor 1)
        invalidTransitionReq).1 = .error UpdateError.invalidTransition
    ∧ (updateAppointment demoDoctors [pendingAppt] 0 6 (Actor.doctor 1)
        invalidTransitionReq).2 = [pendingAppt] :=
  ⟨by decide,
   C10_rejected_transition_atomic demoDoctors [pendingAppt] 0 6 (Actor.doctor 1)
     invalidTransitionReq (by decide)⟩

/-- A confirmed appointment of doctor 1 on day 4 at 09:00 whose date and
time have passed by clock 14400 (day 10). -/
def confirmedPastC : Appointment :=
  { id := 3, patient := 2, doctor := 1, date := 4, time := "09:00",
    status := .confirmed, isArchived := false,
    reason := "Consulta general basica", notes := "" }

/-- C5, counterexample. The doctor cancels, through `cancelAppointment`, a
confirmed appointment whose date+time has passed: the operation stores
`status = cancelled` but leaves `isArchived` at `false`, contradicting the
claim that every such core operation archives in the same update. -/
theorem C5_cancel_no_archive_counterexample :
    confirmedPastC.date * 1440 + toMinutes confirmedPastC.time < 14400
    ∧ cancelAppointment [confirmedPastC] 14400 3 (Actor.doctor 1)
        = (.ok { confirmedPastC with status := Status.cancelled },
           [{ confirmedPastC with status := Status.cancelled }])
    ∧ ({ confirmedPastC with status := Status.cancelled }).isArchived = false := by
  refine ⟨by decide, by decide, by decide⟩

/-- C5, amended: the archival side effect exists only on the
`updateAppointment` status path. There, a doctor's transition of a
confirmed past-due appointment into `completed`, `cancelled` or `no-show`
sets `isArchived = true` in the same update (first conjunct); but
`cancelAppointment` only sets `status = cancelled` and leaves `isArchived`
exactly as it was (second conjunct). -/
theorem C5_archival_amended :
    (∀ (doctors : List Doctor) (store : List Appointment) (clock id : Nat)
        (a : Appointment) (s : Status),
        store.find? (fun x => decide (x.id = id)) = some a →
        a.status = Status.confirmed →
        a.date * 1440 + toMinutes a.time < clock →
        (s = Status.completed ∨ s = Status.cancelled ∨ s = Status.noshow) →
        validateDoc a = true →
        updateAppointment doctors store clock id (Actor.doctor a.doctor)
            { date := none, time := none, reason := none, status := some s, notes := none }
          = (.ok { a with status := s, isArchived := true },
             saveReplace store { a with status := s, isArchived := true }))
    ∧ (∀ (store : List Appointment) (clock id : Nat) (actor : Actor) (a : Appointment),
        store.find? (fun x => decide (x.id = id)) = some a →
        ∀ a', (cancelAppointment store clock id actor).1 = .ok a' →
          a' = { a with status := Status.cancelled } ∧ a'.isArchived = a.isArchived) := by
  constructor
  · intro doctors store clock id a s hfind hstatus hpassed hs hvalid
    have hns : ¬ (a.status = Status.pending ∧
        (s = Status.confirmed ∨ s = Status.cancelled)) := by
      rw [hstatus]; rintro ⟨h, -⟩; exact absurd h (by simp)
    simp only [updateAppointment, updateCore, hfind, isOwnerOf, isDoctorActor,
      decide_eq_true_eq]
    rw [hstatus]
    simp only [applyStatusChange, Option.getD, Option.map]
    simp only [hns, hstatus, hpassed, hs, hvalid, if_pos, if_false, ite_false]
    have hv2 : validateDoc
        { id := a.id, patient := a.patient, doctor := a.doctor, date := a.date,
          time := a.time, status := s, isArchived := true, reason := a.reason,
          notes := a.notes } = true := hvalid
    simp [hv2]
  · intro store clock id actor a hfind a' h
    rw [cancelAppointment_fst] at h
    unfold cancelCore at h
    rw [hfind] at h
    split at h
    · simp at h
    · rename_i b heq
      injection heq with heq
      subst heq
      split at h
      · simp at h
      · split at h
        · simp at h
        · split at h
          · simp at h
          · split at h
            · simp at h
            · injection h with h
              exact ⟨h.symm, by rw [← h]⟩

/-- Witness for `C5_archival_amended`: completing the past-due confirmed
appointment through `updateAppointment` archives it; cancelling it through
`cancelAppointment` leaves `isArchived` as it was. -/
theorem C5_archival_amended_witness :
    updateAppointment demoDoctors [confirmedPastC] 14400 3 (Actor.doctor 1)
        { date := none, time := none, reason := none,
          status := some .completed, notes := none }
      = (.ok { confirmedPastC with status := Status.completed, isArchived := true },
         saveReplace [confirmedPastC]
           { confirmedPastC with status := Status.completed, isArchived := true })
    ∧ ({ confirmedPastC with status := Status.cancelled }
          = { confirmedPastC with status := Status.cancelled }
        ∧ ({ confirmedPastC with status := Status.cancelled }).isArchived
            = confirmedPastC.isArchived) :=
  ⟨C5_archival_amended.1 demoDoctors [confirmedPastC] 14400 3 confirmedPastC .completed
      (by decide) (by decide) (by decide) (Or.inl rfl) (by decide),
   C5_archival_amended.2 [confirmedPastC] 14400 3 (Actor.doctor 1) confirmedPastC
      (by decide) { confirmedPastC with status := Status.cancelled } (by decide)⟩

theorem applyStatusChange_no_availability (clock : Nat) (isDoctor : Bool)
    (origStatus : Status) (a1 : Appointment) (reqStatus : Option Status) (e : AvailError) :
    applyStatusChange clock isDoctor origStatus a1 reqStatus
      ≠ .error (.availability e) := by
  intro h
  unfold applyStatusChange at h
  split at h
  · simp at h
  · split at h
    · split at h
      · simp at h
      · split at h
        · split at h
          · simp at h
          · split at h
            · simp at h
            · simp at h
        · simp at h
    · simp at h

/-- C8: edit exclusion. An `updateAppointment` request whose date and time
are the appointment's own current values is never rejected as `SlotTaken`
against the appointment itself: the controller only re-runs the Conflict
Checker when the date or time actually changes, and when it does run, the
collision queries exclude the edited appointment by its id. -/
theorem C8_edit_exclusion
    (doctors : List Doctor) (store : List Appointment) (clock id : Nat)
    (actor : Actor) (req : UpdateReq) (a : Appointment)
    (hfind : store.find? (fun x => decide (x.id = id)) = some a)
    (howner : isOwnerOf actor a = true)
    (hnc : a.status ≠ Status.cancelled)
    (hncp : a.status ≠ Status.completed)
    (hdate : req.date = some a.date)
    (htime : req.time = some a.time) :
    (updateAppointment doctors store clock id actor req).1
      ≠ .error (.availability AvailError.slotTaken) := by
  rw [updateAppointment_fst]
  intro h
  unfold updateCore at h
  rw [hfind] at h
  simp only [howner, hdate, htime, hnc, hncp, Option.getD_some,
    (by simp : decide (a.date ≠ a.date) = false),
    (by simp : decide (a.time ≠ a.time) = false), Bool.or_self,
    Bool.false_eq_true, if_false, ite_false] at h
  split at h
  · rename_i heq
    exact absurd heq (by simp)
  · split at h
    · rename_i x2 e2 heq
      rw [h] at heq
      exact applyStatusChange_no_availability _ _ _ _ _ _ heq
    · split at h
      · simp at h
      · split at h
        · simp at h
        · simp at h

/-- An update request that sets the appointment's date and time to their
own current values. -/
def ownSlotReq : UpdateReq :=
  { date := some 9, time := some "10:00", reason := none, status := none, notes := none }

/-- Witness for `C8_edit_exclusion`: re-submitting the pending
appointment's own slot is not rejected as `SlotTaken`. -/
theorem C8_edit_exclusion_witness :
    (updateAppointment demoDoctors [pendingAppt] 0 6 (Actor.doctor 1) ownSlotReq).1
      ≠ .error (.availability AvailError.slotTaken) :=
  C8_edit_exclusion demoDoctors [pendingAppt] 0 6 (Actor.doctor 1) ownSlotReq pendingAppt
    (by decide) (by decide) (by decide) (by decide) (by decide) (by decide)
